import Mathlib

/-!
Shallow embedding of the watch-folder ingestion and review/commit state
machine of the Karamove texture-drawing Blender addon (src/__init__.py),
with theorems checking the specification's claims about it.

Modelling conventions:
* Filesystem directories are modelled as lists of file names (the watch
  folder as a list of directory entries, in listing order).  `os.replace`
  overwrites its destination, so it is modelled by removing the destination
  name before appending; `os.makedirs` (directory creation) is not modelled,
  since no claim is about directories themselves.
* Timestamps (`datetime.now().strftime('%Y%m%d_%H%M%S')`) are passed in as
  an explicit string argument.
* Host state that the code reads (whether the watch folder path is set and
  exists, whether the watch-folder feature is enabled in the preferences,
  the scene properties mirroring auto-refresh settings, and the names known
  to `bpy.data.objects`) is passed in as explicit arguments.
-/

namespace Karamove

/-- Per-object settings persisted by `save_addon_data` for each object in
the list: the `use_default_texture` flag from `object_states` plus the two
texture choices of `KaramoveObjectSettings` (src/__init__.py lines 89-93). -/
structure KSettings where
  use_default_texture : Bool
  default_texture : String
  alpha_texture : String
  deriving DecidableEq, Repr

/-- The in-memory `addon_data` dictionary after `load_addon_data` has run:
all eight keys present (src/__init__.py lines 49-56).  The JSON mappings
`object_states` (name to its `use_default_texture` flag, the only key the
code ever puts in the inner dictionary) and `object_settings` are modelled
as association lists. -/
structure AddonState where
  objects : List String
  selected_object : Option String
  auto_refresh : Bool
  refresh_interval : Nat
  review_pending : Bool
  review_image_path : String
  object_states : List (String × Bool)
  object_settings : List (String × KSettings)
  deriving DecidableEq, Repr

/-- A directory entry of the watch folder: its name and whether
`os.path.isfile` holds for it. -/
structure Entry where
  name : String
  isFile : Bool
  deriving DecidableEq, Repr

/-- The parts of the filesystem the core touches: the watch folder's
entries (in `os.listdir` order), the staged files in the review folder and
the files in the permanent textures folder (both as full paths). -/
structure FS where
  watch : List Entry
  review : List String
  textures : List String
  deriving DecidableEq, Repr

/-- Python truthiness of an optional string (`if selected_object_name:`):
`None` and the empty string are falsy. -/
def truthyStr (o : Option String) : Option String :=
  match o with
  | none => none
  | some s => if s = "" then none else some s

/-- Lookup in an association list, modelling Python `dict.get`. -/
def alistGet {α : Type} (l : List (String × α)) (k : String) : Option α :=
  (l.find? (fun p => p.1 = k)).map (fun p => p.2)

/-- ASCII lowercasing of a string, modelling Python `str.lower()` as used
by the extension check (all extensions compared against are ASCII). -/
def lowerStr (s : String) : String :=
  String.mk (s.toList.map Char.toLower)

/-- The image extensions accepted by `process_watch_folder`
(src/__init__.py line 278). -/
def imageExts : List String :=
  [".png", ".jpg", ".jpeg", ".tga", ".bmp", ".tiff"]

/-- Case-insensitive extension test:
`file_name.lower().endswith(('.png', '.jpg', '.jpeg', '.tga', '.bmp', '.tiff'))`. -/
def isImageFile (name : String) : Bool :=
  imageExts.any (fun e => e.toList.isSuffixOf (lowerStr name).toList)

/-- A watch-folder entry that the scanner would claim: a regular file with
an accepted image extension (src/__init__.py line 278). -/
def claimable (e : Entry) : Bool :=
  e.isFile && isImageFile e.name

/-- The extension part of a single path component, following
`os.path.splitext`: the suffix from the last dot, where leading dots of the
component are part of the root (so a component with no dot beyond leading
ones has extension ""). -/
def extOfName (name : String) : String :=
  let cs := name.toList
  let lead := (cs.takeWhile (fun c => c = '.')).length
  let rest := cs.drop lead
  if rest.any (fun c => c = '.') then
    String.mk ('.' :: ((rest.reverse.takeWhile (fun c => c ≠ '.')).reverse))
  else ""

/-- The last path component (after the last slash). -/
def baseName (path : String) : String :=
  String.mk ((path.toList.reverse.takeWhile (fun c => c ≠ '/')).reverse)

/-- `os.path.splitext(path)[1]`: the extension of the last path component. -/
def extOfPath (path : String) : String :=
  extOfName (baseName path)

/-- The review staging folder, `bpy.path.abspath("//review/")` with the
trailing separator of `os.path.join` already included. -/
def reviewDir : String := "//review/"

/-- The permanent textures folder, `bpy.path.abspath("//textures/")`. -/
def texturesDir : String := "//textures/"

/-- The destination file name built by both the scanner and the accept
operator: `f"T_{selected_object_name}_{timestamp}{ext}"`. -/
def newTextureFileName (target ts ext : String) : String :=
  "T_" ++ target ++ "_" ++ ts ++ ext

/-- Arrival of a file in a directory via `os.replace`, which overwrites an
existing destination of the same name. -/
def insertFile (dir : List String) (name : String) : List String :=
  dir.filter (fun p => p ≠ name) ++ [name]

/-- Result of one `process_watch_folder` call: the new addon state and
filesystem, whether `save_addon_data` was called, and the image shown in
the image editor (if any). -/
structure ScanResult where
  state : AddonState
  fs : FS
  saved : Bool
  shown : Option String
  deriving DecidableEq, Repr

/-- The `for file_name in files` loop of `process_watch_folder`
(src/__init__.py lines 276-297): entries already passed over are
accumulated (reversed) in the first list argument.  For the first entry
that is a regular file with an image extension, if a Target is selected
(Python truthiness), the file is moved into the review folder under
`T_<target>_<timestamp><ext>`, the gate is set to Pending, the state is
saved, the image is shown, and the loop breaks.  The `new_file_path`
under the textures folder computed on line 284 is never used by the
source, so it does not appear here. -/
def scanLoop (s : AddonState) (fs : FS) (ts : String) :
    List Entry → List Entry → ScanResult
  | acc, [] => ⟨s, { fs with watch := acc.reverse }, false, none⟩
  | acc, e :: rest =>
    if claimable e then
      match truthyStr s.selected_object with
      | some target =>
        ⟨{ s with review_pending := true,
                  review_image_path :=
                    reviewDir ++ newTextureFileName target ts (extOfName e.name) },
         { fs with watch := acc.reverse ++ rest,
                   review := insertFile fs.review
                     (reviewDir ++ newTextureFileName target ts (extOfName e.name)) },
         true,
         some (reviewDir ++ newTextureFileName target ts (extOfName e.name))⟩
      | none => scanLoop s fs ts (e :: acc) rest
    else scanLoop s fs ts (e :: acc) rest

/-- `process_watch_folder` (src/__init__.py lines 260-297).  `watchExists`
models `watch_folder and os.path.exists(watch_folder)`: when false the
function returns immediately. -/
def process_watch_folder (watchExists : Bool) (s : AddonState) (fs : FS)
    (ts : String) : ScanResult :=
  if watchExists then scanLoop s fs ts [] fs.watch else ⟨s, fs, false, none⟩

/-- Result of one operator `execute` call: the new addon state and
filesystem, whether `save_addon_data` was called, whether an uncaught
exception escaped (the only possibility being `os.replace` on a missing
staged file in the accept operator), and the object whose material was
updated via `create_or_update_material` (if any). -/
structure OpResult where
  state : AddonState
  fs : FS
  saved : Bool
  raised : Bool
  applied : Option String
  deriving DecidableEq, Repr

/-- `KaramoveAcceptTextureOperator.execute` (src/__init__.py lines
751-774).  `registry` models the object names present in
`bpy.data.objects`.  The body runs only when both `review_image_path` and
`selected_object` are truthy; it then moves the staged file into the
textures folder under `T_<currently selected object>_<timestamp><ext>`
(raising if the staged file is missing, since `os.replace` is not
guarded), updates the material of the currently selected object when it
exists in the registry, clears the review state and saves. -/
def acceptExecute (registry : List String) (s : AddonState) (fs : FS)
    (ts : String) : OpResult :=
  if s.review_image_path = "" then ⟨s, fs, false, false, none⟩
  else
    match truthyStr s.selected_object with
    | none => ⟨s, fs, false, false, none⟩
    | some target =>
      let newPath := texturesDir ++
        newTextureFileName target ts (extOfPath s.review_image_path)
      if s.review_image_path ∈ fs.review then
        ⟨{ s with review_pending := false, review_image_path := "" },
         { fs with review := fs.review.filter (fun p => p ≠ s.review_image_path),
                   textures := insertFile fs.textures newPath },
         true, false,
         if target ∈ registry then some target else none⟩
      else ⟨s, fs, false, true, none⟩

/-- `KaramoveDiscardTextureOperator.execute` (src/__init__.py lines
783-793): deletes the staged file if the path is truthy and the file
exists, then unconditionally clears the review state and saves. -/
def discardExecute (s : AddonState) (fs : FS) : OpResult :=
  let fs2 :=
    if s.review_image_path ≠ "" ∧ s.review_image_path ∈ fs.review then
      { fs with review := fs.review.filter (fun p => p ≠ s.review_image_path) }
    else fs
  ⟨{ s with review_pending := false, review_image_path := "" },
   fs2, true, false, none⟩

/-- `KaramoveSelectObjectInListOperator.execute` (src/__init__.py lines
595-598): records the clicked object as the selected one (and saves). -/
def selectObject (name : String) (s : AddonState) : AddonState :=
  { s with selected_object := some name }

/-- Result of one `auto_refresh_timer` tick: the new addon state and
filesystem, the value left in the global `timer_running` flag, whether the
bulk `image.reload()` pass ran, the return value (`some interval` keeps
the timer registered, `none` unregisters it), and whether state was
saved. -/
structure TimerResult where
  state : AddonState
  fs : FS
  timer_running : Bool
  reloaded : Bool
  rearm : Option Nat
  saved : Bool
  deriving DecidableEq, Repr

/-- `auto_refresh_timer` (src/__init__.py lines 299-317).  `watchEnabled`
models `prefs.watch_folder_enabled`.  When auto-refresh and the watch
folder are enabled it runs the scanner unconditionally, reloads all
images only when no review is pending afterwards, sets `timer_running`
and reschedules after the configured interval; otherwise it clears
`timer_running` and returns `None`. -/
def auto_refresh_timer (watchEnabled watchExists : Bool) (s : AddonState)
    (fs : FS) (ts : String) : TimerResult :=
  if s.auto_refresh && watchEnabled then
    let r := process_watch_folder watchExists s fs ts
    ⟨r.state, r.fs, true, !r.state.review_pending,
     some r.state.refresh_interval, r.saved⟩
  else ⟨s, fs, false, false, none, false⟩

/-- State of the refresh scheduler as seen by `update_auto_refresh` and
`auto_refresh_timer`: how many timer instances are currently registered
with `bpy.app.timers`, the global `timer_running` flag, the two enable
flags and the interval. -/
structure SchedState where
  armed : Nat
  timer_running : Bool
  auto_refresh : Bool
  refresh_interval : Nat
  watch_enabled : Bool
  deriving DecidableEq, Repr

/-- `update_auto_refresh` (src/__init__.py lines 319-336): copies the
scene properties into the addon data, then, when both enable flags hold,
registers a timer instance unless `timer_running` is set — note that
registration itself does not set `timer_running`; only the first tick
does.  When the flags do not hold it unregisters (and clears the flag)
only if `timer_running` is set. -/
def update_auto_refresh (sceneAuto : Bool) (sceneInterval : Nat)
    (s : SchedState) : SchedState :=
  let s1 := { s with auto_refresh := sceneAuto,
                     refresh_interval := sceneInterval }
  if s1.auto_refresh && s1.watch_enabled then
    if !s1.timer_running then { s1 with armed := s1.armed + 1 } else s1
  else
    if s1.timer_running then
      { s1 with armed := s1.armed - 1, timer_running := false }
    else s1

/-- One registered timer instance firing, as far as the scheduler state is
concerned (src/__init__.py lines 305-317): with both enable flags set it
sets `timer_running` and stays registered by returning the interval;
otherwise it clears `timer_running` and drops out of the timer registry
by returning `None`.  With nothing armed no tick can occur. -/
def timerTick (s : SchedState) : SchedState :=
  if s.armed = 0 then s
  else if s.auto_refresh && s.watch_enabled then { s with timer_running := true }
  else { s with armed := s.armed - 1, timer_running := false }

/-- The interleavings the scheduler is exposed to: enable-flag updates
coming from the scene properties, and timer ticks. -/
inductive SchedEvent where
  | setAuto (b : Bool) (i : Nat)
  | tick
  deriving DecidableEq, Repr

/-- Step of the scheduler state machine. -/
def schedStep (s : SchedState) : SchedEvent → SchedState
  | SchedEvent.setAuto b i => update_auto_refresh b i s
  | SchedEvent.tick => timerTick s

/-- Run of the scheduler over a sequence of events. -/
def schedRun (s : SchedState) (es : List SchedEvent) : SchedState :=
  es.foldl schedStep s

/-- Initial scheduler state: nothing registered, `timer_running` false
(src/__init__.py lines 21-22), auto-refresh off. -/
def schedInit (watchEnabled : Bool) : SchedState :=
  ⟨0, false, false, 5, watchEnabled⟩

/-- A parsed JSON state document: each key is optional, mirroring what
`json.load` may or may not contain. -/
structure RawDoc where
  objects : Option (List String)
  selected_object : Option (Option String)
  auto_refresh : Option Bool
  refresh_interval : Option Nat
  review_pending : Option Bool
  review_image_path : Option String
  object_states : Option (List (String × Bool))
  object_settings : Option (List (String × KSettings))
  deriving DecidableEq, Repr

/-- What `load_addon_data` finds: no project location
(`get_project_json_file_path()` returned `None`), state file absent,
parse failure (logged, not propagated), or a parsed document. -/
inductive LoadSource where
  | noProjectLocation
  | fileAbsent
  | parseFailure
  | parsed (d : RawDoc)
  deriving DecidableEq, Repr

/-- The empty dictionary `addon_data` is reset to before reading. -/
def emptyRawDoc : RawDoc :=
  ⟨none, none, none, none, none, none, none, none⟩

/-- The `setdefault` block of `load_addon_data` (src/__init__.py lines
49-56): every missing key is backfilled with its default. -/
def backfillDefaults (d : RawDoc) : AddonState :=
  { objects := d.objects.getD []
    selected_object := d.selected_object.getD none
    auto_refresh := d.auto_refresh.getD false
    refresh_interval := d.refresh_interval.getD 5
    review_pending := d.review_pending.getD false
    review_image_path := d.review_image_path.getD ""
    object_states := d.object_states.getD []
    object_settings := d.object_settings.getD [] }

/-- `load_addon_data` (src/__init__.py lines 34-56): on any of the three
failure modes `addon_data` stays the empty dictionary and only the
defaults remain; a parsed document is taken as-is and backfilled.  (The
subsequent application of settings to the scene and objects does not
touch `addon_data`.) -/
def load_addon_data : LoadSource → AddonState
  | LoadSource.noProjectLocation => backfillDefaults emptyRawDoc
  | LoadSource.fileAbsent => backfillDefaults emptyRawDoc
  | LoadSource.parseFailure => backfillDefaults emptyRawDoc
  | LoadSource.parsed d => backfillDefaults d

/-- The documented-default `AddonState`, as the specification lists it. -/
def defaultAddonState : AddonState :=
  { objects := []
    selected_object := none
    auto_refresh := false
    refresh_interval := 5
    review_pending := false
    review_image_path := ""
    object_states := []
    object_settings := [] }

/-- The scene properties `save_addon_data` copies back into the state
(src/__init__.py lines 80-82). -/
structure SceneProps where
  auto_refresh : Bool
  refresh_interval : Nat
  deriving DecidableEq, Repr

/-- The `object_settings` dictionary rebuilt by `save_addon_data`
(src/__init__.py lines 85-94): one entry per listed object that still
exists in `bpy.data.objects` (modelled by `registry`, mapping an object
name to its `default_texture` and `alpha_texture`), with the
`use_default_texture` flag looked up in `object_states` (default true). -/
def buildObjectSettings (registry : List (String × String × String))
    (s : AddonState) : List (String × KSettings) :=
  s.objects.filterMap (fun name =>
    match alistGet registry name with
    | some dtat =>
      some (name,
        { use_default_texture := (alistGet s.object_states name).getD true,
          default_texture := dtat.1,
          alpha_texture := dtat.2 })
    | none => none)

/-- Serialization of the full in-memory state: `json.dump(addon_data, f)`
writes every key. -/
def toRawDoc (s : AddonState) : RawDoc :=
  ⟨some s.objects, some s.selected_object, some s.auto_refresh,
   some s.refresh_interval, some s.review_pending,
   some s.review_image_path, some s.object_states, some s.object_settings⟩

/-- `save_addon_data` (src/__init__.py lines 75-101): overwrites
`auto_refresh` and `refresh_interval` from the scene, rebuilds
`object_settings` from the object registry, then writes the whole
dictionary when the project has a location (otherwise nothing is
written).  Returns the mutated in-memory state and the written document,
if any. -/
def save_addon_data (scene : SceneProps)
    (registry : List (String × String × String))
    (hasProjectLocation : Bool) (s : AddonState) : AddonState × Option RawDoc :=
  let s1 := { s with auto_refresh := scene.auto_refresh,
                     refresh_interval := scene.refresh_interval }
  let s2 := { s1 with object_settings := buildObjectSettings registry s1 }
  (s2, if hasProjectLocation then some (toRawDoc s2) else none)

lemma scanLoop_noTarget (s : AddonState) (fs : FS) (ts : String)
    (h : truthyStr s.selected_object = none) :
    ∀ (l acc : List Entry),
      scanLoop s fs ts acc l =
        ⟨s, { fs with watch := acc.reverse ++ l }, false, none⟩ := by
  intro l
  induction l with
  | nil => intro acc; simp [scanLoop]
  | cons e rest ih =>
    intro acc
    by_cases hc : claimable e
    · simp [scanLoop, hc, h, ih (e :: acc)]
    · simp [scanLoop, hc, ih (e :: acc)]

lemma scanLoop_claim (s : AddonState) (fs : FS) (ts target : String)
    (h : truthyStr s.selected_object = some target) :
    ∀ (pre acc : List Entry) (e : Entry) (post : List Entry),
      (∀ x ∈ pre, claimable x = false) → claimable e = true →
      scanLoop s fs ts acc (pre ++ e :: post) =
        ⟨{ s with review_pending := true,
                  review_image_path :=
                    reviewDir ++ newTextureFileName target ts (extOfName e.name) },
         { fs with watch := acc.reverse ++ (pre ++ post),
                   review := insertFile fs.review
                     (reviewDir ++ newTextureFileName target ts (extOfName e.name)) },
         true,
         some (reviewDir ++ newTextureFileName target ts (extOfName e.name))⟩ := by
  intro pre
  induction pre with
  | nil =>
    intro acc e post _ hce
    simp [scanLoop, hce, h]
  | cons p ps ih =>
    intro acc e post hpre hce
    have hp : claimable p = false := hpre p (by simp)
    simp only [List.cons_append, scanLoop, hp, Bool.false_eq_true, if_false]
    refine (ih (p :: acc) e post (fun x hx => hpre x (by simp [hx])) hce).trans ?_
    simp

lemma scanLoop_pending (s : AddonState) (fs : FS) (ts : String)
    (hp : s.review_pending = true) :
    ∀ (l acc : List Entry), (scanLoop s fs ts acc l).state.review_pending = true := by
  intro l
  induction l with
  | nil => intro acc; simpa [scanLoop] using hp
  | cons e rest ih =>
    intro acc
    by_cases hc : claimable e
    · cases hsel : truthyStr s.selected_object with
      | none => simp [scanLoop, hc, hsel, ih]
      | some t => simp [scanLoop, hc, hsel]
    · simp [scanLoop, hc, ih]

lemma pwf_noTarget (s : AddonState) (fs : FS) (ts : String)
    (h : truthyStr s.selected_object = none) :
    process_watch_folder true s fs ts = ⟨s, fs, false, none⟩ := by
  simp [process_watch_folder, scanLoop_noTarget s fs ts h fs.watch []]

lemma pwf_pending (wex : Bool) (s : AddonState) (fs : FS) (ts : String)
    (hp : s.review_pending = true) :
    (process_watch_folder wex s fs ts).state.review_pending = true := by
  cases wex with
  | false => simpa [process_watch_folder] using hp
  | true => simp [process_watch_folder, scanLoop_pending s fs ts hp]

lemma pwf_claim (s : AddonState) (fs : FS) (ts target : String)
    (pre : List Entry) (e : Entry) (post : List Entry)
    (h : truthyStr s.selected_object = some target)
    (hpre : ∀ x ∈ pre, claimable x = false) (hce : claimable e = true)
    (hw : fs.watch = pre ++ e :: post) :
    process_watch_folder true s fs ts =
      ⟨{ s with review_pending := true,
                review_image_path :=
                  reviewDir ++ newTextureFileName target ts (extOfName e.name) },
       { fs with watch := pre ++ post,
                 review := insertFile fs.review
                   (reviewDir ++ newTextureFileName target ts (extOfName e.name)) },
       true,
       some (reviewDir ++ newTextureFileName target ts (extOfName e.name))⟩ := by
  show scanLoop s fs ts [] fs.watch = _
  rw [hw, scanLoop_claim s fs ts target h pre [] e post hpre hce]
  simp

lemma timer_noReload (wEnabled wex : Bool) (s : AddonState) (fs : FS)
    (ts : String) (hp : s.review_pending = true) :
    (auto_refresh_timer wEnabled wex s fs ts).reloaded = false := by
  by_cases h : s.auto_refresh && wEnabled
  · simp [auto_refresh_timer, h, pwf_pending wex s fs ts hp]
  · simp [auto_refresh_timer, h]

lemma insertFile_fresh (dir : List String) (name : String) (h : name ∉ dir) :
    insertFile dir name = dir ++ [name] := by
  unfold insertFile
  have hf : dir.filter (fun p => p ≠ name) = dir := by
    apply List.filter_eq_self.mpr
    intro a ha
    have hne : a ≠ name := fun heq => h (heq ▸ ha)
    simp [hne]
  rw [hf]

/-- State with a review pending on an already staged file, a selected
Target, and one fresh image waiting in the watch folder. -/
def sPend : AddonState :=
  ⟨["Cube"], some "Cube", true, 5, true, "//review/T_Cube_20260101_000000.png",
   [("Cube", true)], []⟩

/-- Filesystem matching `sPend`: the staged file is in the review folder
and a new image sits in the watch folder. -/
def fsPend : FS :=
  ⟨[⟨"new.png", true⟩], ["//review/T_Cube_20260101_000000.png"], []⟩

/-- C1, counterexample: with the gate Pending and a matching file in the
watch folder, a scan invocation does not leave the review state
unchanged — `process_watch_folder` never checks `review_pending`, so it
stages the new file and overwrites `review_image_path`. -/
theorem claim_C1_counterexample :
    sPend.review_pending = true ∧
    ¬ ((process_watch_folder true sPend fsPend "20260102_101500").state.review_image_path
        = sPend.review_image_path) := by decide

/-- C1, amended: the review slot holds at most one candidate path at a
time, but while Pending the Folder Scanner is not skipped: a scan with a
selected Target and a matching file stages a new candidate, leaving the
gate Pending and overwriting `review_image_path` with the new staged
path; only the bulk image reload of the timer tick is suppressed while
Pending. -/
theorem claim_C1 (wEnabled wex : Bool) (s : AddonState) (fs : FS)
    (ts target : String) (pre : List Entry) (e : Entry) (post : List Entry)
    (hp : s.review_pending = true)
    (hsel : truthyStr s.selected_object = some target)
    (hpre : ∀ x ∈ pre, claimable x = false) (hce : claimable e = true)
    (hw : fs.watch = pre ++ e :: post) :
    (auto_refresh_timer wEnabled wex s fs ts).reloaded = false ∧
    (process_watch_folder true s fs ts).state.review_pending = true ∧
    (process_watch_folder true s fs ts).state.review_image_path =
      reviewDir ++ newTextureFileName target ts (extOfName e.name) := by
  refine ⟨timer_noReload wEnabled wex s fs ts hp, ?_, ?_⟩
  · rw [pwf_claim s fs ts target pre e post hsel hpre hce hw]
  · rw [pwf_claim s fs ts target pre e post hsel hpre hce hw]

/-- C1, witness: the amended theorem evaluated on `sPend`/`fsPend`. -/
theorem claim_C1_witness :
    sPend.review_pending = true ∧
    (auto_refresh_timer true true sPend fsPend "20260103_090000").reloaded = false ∧
    (process_watch_folder true sPend fsPend "20260103_090000").state.review_image_path =
      "//review/T_Cube_20260103_090000.png" := by
  have h := claim_C1 true true sPend fsPend "20260103_090000" "Cube"
    [] ⟨"new.png", true⟩ [] (by decide) (by decide) (by decide) (by decide) (by decide)
  exact ⟨by decide, h.1, h.2.2.trans (by decide)⟩

/-- C2: with a Target selected, a single scan claims exactly the first
matching watch-folder entry (first regular file with an accepted image
extension, in listing order): it is moved into the review folder under
`T_<target>_<timestamp><ext>`, the gate is set to Pending and the state
saved, while every other entry stays in the watch folder unchanged and in
order. -/
theorem claim_C2 (s : AddonState) (fs : FS) (ts target : String)
    (pre : List Entry) (e : Entry) (post : List Entry)
    (hsel : truthyStr s.selected_object = some target)
    (hpre : ∀ x ∈ pre, claimable x = false) (hce : claimable e = true)
    (hw : fs.watch = pre ++ e :: post) :
    process_watch_folder true s fs ts =
      ⟨{ s with review_pending := true,
                review_image_path :=
                  reviewDir ++ newTextureFileName target ts (extOfName e.name) },
       { fs with watch := pre ++ post,
                 review := insertFile fs.review
                   (reviewDir ++ newTextureFileName target ts (extOfName e.name)) },
       true,
       some (reviewDir ++ newTextureFileName target ts (extOfName e.name))⟩ :=
  pwf_claim s fs ts target pre e post hsel hpre hce hw

/-- Idle state with target `Cube` selected, for the C2 witness. -/
def sC2 : AddonState :=
  ⟨["Cube"], some "Cube", false, 5, false, "", [("Cube", true)], []⟩

/-- Watch folder holding `a.png` and `b.jpg` simultaneously. -/
def fsC2 : FS := ⟨[⟨"a.png", true⟩, ⟨"b.jpg", true⟩], [], []⟩

/-- C2, witness: the specification's own example — with `a.png` and
`b.jpg` present, one scan claims only `a.png` and leaves `b.jpg` for the
next call. -/
theorem claim_C2_witness :
    process_watch_folder true sC2 fsC2 "20260101_120000" =
      ⟨⟨["Cube"], some "Cube", false, 5, true,
         "//review/T_Cube_20260101_120000.png", [("Cube", true)], []⟩,
       ⟨[⟨"b.jpg", true⟩], ["//review/T_Cube_20260101_120000.png"], []⟩,
       true, some "//review/T_Cube_20260101_120000.png"⟩ := by
  have h := claim_C2 sC2 fsC2 "20260101_120000" "Cube"
    [] ⟨"a.png", true⟩ [⟨"b.jpg", true⟩] (by decide) (by decide) (by decide) (by decide)
  exact h.trans (by decide)

/-- Pending state whose selected Target has gone away (removing the
selected object from the list sets `selected_object` to `None`), with the
staged file still in the review folder. -/
def sC3 : AddonState :=
  ⟨["Cube"], none, false, 5, true, "//review/T_Cube_20260101_000000.png",
   [("Cube", true)], []⟩

/-- Filesystem matching `sC3`. -/
def fsC3 : FS := ⟨[], ["//review/T_Cube_20260101_000000.png"], []⟩

/-- C3, counterexample: in a Pending state with an existing staged file
but no Target selected, accept does not remove the staged file and does
not return the gate to Idle — the whole operator body is skipped. -/
theorem claim_C3_counterexample :
    sC3.review_pending = true ∧ sC3.review_image_path ∈ fsC3.review ∧
    ¬ ((acceptExecute ["Cube"] sC3 fsC3 "20260102_000000").state.review_pending = false ∧
       (acceptExecute ["Cube"] sC3 fsC3 "20260102_000000").fs.review = []) := by decide

/-- C3, amended: for every Pending state with an existing staged file,
discard removes the staged file, adds nothing to permanent storage and
returns the gate to Idle; accept does the same removal and leaves exactly
one newly-named file in permanent storage, but only provided a Target is
currently selected (otherwise it is a no-op and the candidate stays). -/
theorem claim_C3 (registry : List String) (s : AddonState) (fs : FS)
    (ts : String)
    (hp : s.review_pending = true)
    (hpath : s.review_image_path ≠ "")
    (hmem : s.review_image_path ∈ fs.review) :
    (∀ target, truthyStr s.selected_object = some target →
      (acceptExecute registry s fs ts).state.review_pending = false ∧
      (acceptExecute registry s fs ts).state.review_image_path = "" ∧
      (acceptExecute registry s fs ts).fs.review
        = fs.review.filter (fun p => p ≠ s.review_image_path) ∧
      (acceptExecute registry s fs ts).raised = false ∧
      (acceptExecute registry s fs ts).saved = true ∧
      (texturesDir ++ newTextureFileName target ts (extOfPath s.review_image_path)
          ∉ fs.textures →
        (acceptExecute registry s fs ts).fs.textures
          = fs.textures ++ [texturesDir ++
              newTextureFileName target ts (extOfPath s.review_image_path)]))
    ∧
    ((discardExecute s fs).state.review_pending = false ∧
     (discardExecute s fs).state.review_image_path = "" ∧
     (discardExecute s fs).fs.review
       = fs.review.filter (fun p => p ≠ s.review_image_path) ∧
     (discardExecute s fs).fs.textures = fs.textures ∧
     (discardExecute s fs).raised = false) := by
  constructor
  · intro target hsel
    have hacc : acceptExecute registry s fs ts =
        ⟨{ s with review_pending := false, review_image_path := "" },
         { fs with review := fs.review.filter (fun p => p ≠ s.review_image_path),
                   textures := insertFile fs.textures
                     (texturesDir ++
                       newTextureFileName target ts (extOfPath s.review_image_path)) },
         true, false,
         if target ∈ registry then some target else none⟩ := by
      simp [acceptExecute, hpath, hsel, hmem]
    refine ⟨by rw [hacc], by rw [hacc], by rw [hacc], by rw [hacc], by rw [hacc],
      fun hfresh => ?_⟩
    rw [hacc]
    exact insertFile_fresh fs.textures _ hfresh
  · simp [discardExecute, hpath, hmem]

/-- Pending state with target `Cube` selected and its staged file
present, for the C3 witness. -/
def sC3w : AddonState :=
  ⟨["Cube"], some "Cube", false, 5, true, "//review/T_Cube_20260101_000000.png",
   [("Cube", true)], []⟩

/-- Filesystem matching `sC3w`. -/
def fsC3w : FS := ⟨[], ["//review/T_Cube_20260101_000000.png"], []⟩

/-- C3, witness: the amended theorem evaluated on `sC3w`/`fsC3w`. -/
theorem claim_C3_witness :
    (acceptExecute ["Cube"] sC3w fsC3w "20260102_000000").fs.textures
      = ["//textures/T_Cube_20260102_000000.png"] ∧
    (acceptExecute ["Cube"] sC3w fsC3w "20260102_000000").fs.review = [] ∧
    (acceptExecute ["Cube"] sC3w fsC3w "20260102_000000").state.review_pending = false ∧
    (discardExecute sC3w fsC3w).fs.review = [] ∧
    (discardExecute sC3w fsC3w).state.review_pending = false := by
  have h := claim_C3 ["Cube"] sC3w fsC3w "20260102_000000"
    (by decide) (by decide) (by decide)
  have ha := h.1 "Cube" (by decide)
  exact ⟨(ha.2.2.2.2.2 (by decide)).trans (by decide), ha.2.2.1.trans (by decide),
    ha.1, h.2.2.2.1.trans (by decide), h.2.1⟩

/-- Idle state with targets `A` and `B`, `A` selected, and one image in
the watch folder. -/
def sC4 : AddonState :=
  ⟨["A", "B"], some "A", false, 5, false, "", [("A", true), ("B", true)], []⟩

/-- Filesystem matching `sC4`. -/
def fsC4 : FS := ⟨[⟨"kid.png", true⟩], [], []⟩

/-- The scan that stages the image while `A` is selected. -/
def stagedC4 : ScanResult := process_watch_folder true sC4 fsC4 "20260102_100000"

/-- The user then selects `B` while the review is pending. -/
def switchedC4 : AddonState := selectObject "B" stagedC4.state

/-- Accepting after the selection changed. -/
def acceptedC4 : OpResult :=
  acceptExecute ["A", "B"] switchedC4 stagedC4.fs "20260102_110000"

/-- C4, counterexample: the candidate was staged while `A` was selected
(its staged name records `A`), but after selecting `B` the accept
operator names the committed file after `B` and applies it to `B` — the
staging-time owner is neither required nor used. -/
theorem claim_C4_counterexample :
    stagedC4.state.review_image_path = "//review/T_A_20260102_100000.png" ∧
    acceptedC4.applied = some "B" ∧
    acceptedC4.fs.textures = ["//textures/T_B_20260102_110000.png"] ∧
    ¬ (acceptedC4.applied = some "A") ∧
    ¬ ("//textures/T_A_20260102_110000.png" ∈ acceptedC4.fs.textures) := by decide

/-- C4, amended: a ReviewCandidate records only the staged file path (the
staging-time Target survives only inside the staged file's name and is
never read back); accept requires only that some Target name is currently
selected, names the committed file after the currently selected Target,
and applies the image to the currently selected Target when it exists in
the object registry (the file is committed even when it does not). -/
theorem claim_C4 (registry : List String) (s : AddonState) (fs : FS)
    (ts target : String)
    (hsel : truthyStr s.selected_object = some target)
    (hpath : s.review_image_path ≠ "")
    (hmem : s.review_image_path ∈ fs.review) :
    (acceptExecute registry s fs ts).fs.textures =
      insertFile fs.textures
        (texturesDir ++ newTextureFileName target ts (extOfPath s.review_image_path)) ∧
    (acceptExecute registry s fs ts).applied =
      (if target ∈ registry then some target else none) ∧
    (acceptExecute registry s fs ts).state.review_pending = false := by
  simp [acceptExecute, hpath, hsel, hmem]

/-- Pending state staged under `A` but with `B` now selected, for the C4
witness. -/
def sC4w : AddonState :=
  ⟨["A", "B"], some "B", false, 5, true, "//review/T_A_20260102_100000.png",
   [("A", true), ("B", true)], []⟩

/-- Filesystem matching `sC4w`. -/
def fsC4w : FS := ⟨[], ["//review/T_A_20260102_100000.png"], []⟩

/-- C4, witness: the amended theorem evaluated on `sC4w`/`fsC4w`. -/
theorem claim_C4_witness :
    (acceptExecute ["A", "B"] sC4w fsC4w "20260102_110000").fs.textures
      = ["//textures/T_B_20260102_110000.png"] ∧
    (acceptExecute ["A", "B"] sC4w fsC4w "20260102_110000").applied = some "B" := by
  have h := claim_C4 ["A", "B"] sC4w fsC4w "20260102_110000" "B"
    (by decide) (by decide) (by decide)
  exact ⟨h.1.trans (by decide), h.2.1.trans (by decide)⟩

/-- C5: in the Idle state (no pending flag, empty candidate path) accept
is exactly a no-op — state and filesystem unchanged, nothing saved,
nothing raised — and discard writes back the identical state (it saves,
but state and filesystem are unchanged and nothing is raised). -/
theorem claim_C5 (registry : List String) (s : AddonState) (fs : FS) (ts : String)
    (hp : s.review_pending = false) (hpath : s.review_image_path = "") :
    acceptExecute registry s fs ts = ⟨s, fs, false, false, none⟩ ∧
    discardExecute s fs = ⟨s, fs, true, false, none⟩ := by
  constructor
  · simp [acceptExecute, hpath]
  · cases s with
    | mk o so ar ri rp rip os oss =>
      cases hp
      cases hpath
      simp [discardExecute]

/-- An Idle state with some history, for the C5 witness. -/
def sC5 : AddonState :=
  ⟨["Cube"], some "Cube", true, 3, false, "", [("Cube", false)], []⟩

/-- Filesystem matching `sC5`: a previously committed texture exists. -/
def fsC5 : FS := ⟨[], [], ["//textures/T_Cube_20250101_000000.png"]⟩

/-- C5, witness: the theorem evaluated on `sC5`/`fsC5`. -/
theorem claim_C5_witness :
    acceptExecute ["Cube"] sC5 fsC5 "20260104_000000" = ⟨sC5, fsC5, false, false, none⟩ ∧
    discardExecute sC5 fsC5 = ⟨sC5, fsC5, true, false, none⟩ :=
  claim_C5 ["Cube"] sC5 fsC5 "20260104_000000" (by decide) (by decide)

/-- C6: `load_addon_data` is a total function (it never raises); on a
missing project location, an absent state file or a parse failure it
returns the documented-default state, and for any parsed document it
keeps every present key and backfills every missing key with its
documented default instead of rejecting the document. -/
theorem claim_C6 :
    load_addon_data LoadSource.noProjectLocation = defaultAddonState ∧
    load_addon_data LoadSource.fileAbsent = defaultAddonState ∧
    load_addon_data LoadSource.parseFailure = defaultAddonState ∧
    ∀ d : RawDoc, load_addon_data (LoadSource.parsed d) =
      { objects := d.objects.getD defaultAddonState.objects,
        selected_object := d.selected_object.getD defaultAddonState.selected_object,
        auto_refresh := d.auto_refresh.getD defaultAddonState.auto_refresh,
        refresh_interval := d.refresh_interval.getD defaultAddonState.refresh_interval,
        review_pending := d.review_pending.getD defaultAddonState.review_pending,
        review_image_path := d.review_image_path.getD defaultAddonState.review_image_path,
        object_states := d.object_states.getD defaultAddonState.object_states,
        object_settings := d.object_settings.getD defaultAddonState.object_settings } :=
  ⟨rfl, rfl, rfl, fun _ => rfl⟩

/-- C7: saving a well-formed state and loading it back yields the same
state.  Well-formedness is the consistency the code itself maintains: the
scene properties mirror the state's auto-refresh settings (they are
written through `update_auto_refresh` and read back on load), and the
persisted `object_settings` agree with what `save_addon_data` rebuilds
from the object registry. -/
theorem claim_C7 (scene : SceneProps) (registry : List (String × String × String))
    (s : AddonState)
    (h1 : scene.auto_refresh = s.auto_refresh)
    (h2 : scene.refresh_interval = s.refresh_interval)
    (h3 : buildObjectSettings registry s = s.object_settings) :
    (save_addon_data scene registry true s).2.map
      (fun d => load_addon_data (LoadSource.parsed d)) = some s := by
  have key : (save_addon_data scene registry true s).1 = s := by
    show ({ s with auto_refresh := scene.auto_refresh,
                   refresh_interval := scene.refresh_interval,
                   object_settings := buildObjectSettings registry s } : AddonState) = s
    rw [h1, h2, h3]
  calc (save_addon_data scene registry true s).2.map
        (fun d => load_addon_data (LoadSource.parsed d))
      = some ((save_addon_data scene registry true s).1) := rfl
    _ = some s := by rw [key]

/-- A well-formed state with one listed object, for the C7 witness. -/
def sC7 : AddonState :=
  ⟨["Cube"], some "Cube", true, 7, false, "", [("Cube", false)],
   [("Cube", ⟨false, "Dft", "Alp"⟩)]⟩

/-- Scene properties mirroring `sC7`. -/
def sceneC7 : SceneProps := ⟨true, 7⟩

/-- Object registry consistent with `sC7`. -/
def regC7 : List (String × String × String) := [("Cube", "Dft", "Alp")]

/-- C7, witness: the round trip evaluated on `sC7`. -/
theorem claim_C7_witness :
    (save_addon_data sceneC7 regC7 true sC7).2.map
      (fun d => load_addon_data (LoadSource.parsed d)) = some sC7 :=
  claim_C7 sceneC7 regC7 sC7 (by decide) (by decide) (by decide)

/-- C8: a scan over a nonexistent (or unset) watch folder, a scan over an
empty watch folder, and a scan with no Target selected are all exact
no-ops — state and filesystem unchanged (matching files stay in the watch
folder), nothing saved, nothing shown. -/
theorem claim_C8 (s : AddonState) (fs : FS) (ts : String) :
    process_watch_folder false s fs ts = ⟨s, fs, false, none⟩ ∧
    (fs.watch = [] → process_watch_folder true s fs ts = ⟨s, fs, false, none⟩) ∧
    (truthyStr s.selected_object = none →
      process_watch_folder true s fs ts = ⟨s, fs, false, none⟩) := by
  refine ⟨by simp [process_watch_folder], ?_, fun hsel => pwf_noTarget s fs ts hsel⟩
  intro hw
  cases fs with
  | mk w r t =>
    cases hw
    simp [process_watch_folder, scanLoop]

/-- State with no Target selected, for the C8 witness. -/
def sC8 : AddonState := ⟨["Cube"], none, false, 5, false, "", [], []⟩

/-- Watch folder containing a matching file, for the C8 witness. -/
def fsC8 : FS := ⟨[⟨"a.png", true⟩], [], []⟩

/-- Empty watch folder, for the C8 witness. -/
def fsC8e : FS := ⟨[], [], []⟩

/-- C8, witness: the theorem evaluated with a nonexistent folder, an
empty folder, and a matching file but no selected Target. -/
theorem claim_C8_witness :
    truthyStr sC8.selected_object = none ∧
    process_watch_folder false sC8 fsC8 "20260105_000000" = ⟨sC8, fsC8, false, none⟩ ∧
    process_watch_folder true sC8 fsC8e "20260105_000000" = ⟨sC8, fsC8e, false, none⟩ ∧
    process_watch_folder true sC8 fsC8 "20260105_000000" = ⟨sC8, fsC8, false, none⟩ := by
  refine ⟨by decide, (claim_C8 sC8 fsC8 "20260105_000000").1,
    (claim_C8 sC8 fsC8e "20260105_000000").2.1 (by decide),
    (claim_C8 sC8 fsC8 "20260105_000000").2.2 (by decide)⟩

/-- C9, counterexample: from the initial state with the watch folder
enabled, two enable-flag updates arriving before the first tick register
two timer instances — `timer_running` is set only by the first tick, not
at registration, so the guard does not make the second arming request a
no-op. -/
theorem claim_C9_counterexample :
    ¬ ((schedRun (schedInit true)
        [SchedEvent.setAuto true 5, SchedEvent.setAuto true 5]).armed ≤ 1) := by decide

/-- C9, amended: the running-flag guard only takes effect once the timer
has ticked: when `timer_running` is set (and the watch folder enabled),
an arming request is a no-op apart from recording the scene values — but
between registration and the first tick `timer_running` is still false,
so a second arming request in that window arms a duplicate scheduler. -/
theorem claim_C9 (s : SchedState) (i : Nat)
    (hrun : s.timer_running = true) (hen : s.watch_enabled = true) :
    update_auto_refresh true i s =
      { s with auto_refresh := true, refresh_interval := i } := by
  simp [update_auto_refresh, hrun, hen]

/-- A scheduler state whose timer has already ticked, for the C9
witness. -/
def sC9 : SchedState := ⟨1, true, true, 5, true⟩

/-- C9, witness: the amended theorem evaluated on `sC9`. -/
theorem claim_C9_witness :
    update_auto_refresh true 7 sC9 = { sC9 with auto_refresh := true, refresh_interval := 7 } :=
  claim_C9 sC9 7 (by decide) (by decide)

/-- C10: accepting while Pending with no Target selected is an exact
no-op — the operator body is skipped, so the gate stays Pending,
`review_image_path` keeps its value, the staged file is neither moved nor
deleted, nothing is saved and nothing is raised. -/
theorem claim_C10 (registry : List String) (s : AddonState) (fs : FS) (ts : String)
    (hp : s.review_pending = true)
    (hsel : truthyStr s.selected_object = none) :
    acceptExecute registry s fs ts = ⟨s, fs, false, false, none⟩ := by
  by_cases hpath : s.review_image_path = ""
  · simp [acceptExecute, hpath]
  · simp [acceptExecute, hpath, hsel]

/-- Pending state with a staged file but no selected Target, for the C10
witness. -/
def sC10 : AddonState :=
  ⟨["Cube"], none, false, 5, true, "//review/T_Cube_20260101_000000.png", [], []⟩

/-- Filesystem matching `sC10`. -/
def fsC10 : FS := ⟨[], ["//review/T_Cube_20260101_000000.png"], []⟩

/-- C10, witness: the theorem evaluated on `sC10`/`fsC10`. -/
theorem claim_C10_witness :
    sC10.review_pending = true ∧
    acceptExecute [] sC10 fsC10 "20260106_000000" = ⟨sC10, fsC10, false, false, none⟩ :=
  ⟨by decide, claim_C10 [] sC10 fsC10 "20260106_000000" (by decide) (by decide)⟩

end Karamove
